import Mathlib

/-
Verification of the livekit-voice-agent front-end excerpt.

Shallow embedding of two source files:
  * `src/frontend/app-config.ts` — the `AppConfig` interface and the
    `APP_CONFIG_DEFAULTS` constant, whose `agentName` field reads
    `process.env.AGENT_NAME ?? undefined`.
  * the welcome-screen component file — `WelcomeImage` (an SVG icon) and
    `WelcomeView` (a heading, a description paragraph, a call-to-action
    Button and a disclaimer footer).

The process environment is a record holding the one variable the code
reads.  Rendered JSX is embedded as a tree of elements (tag, string
attributes, an optional attached ref, an optional onClick handler,
children) and text nodes; the `Button` component imported from the UI
library is kept as an element tagged "Button" carrying the attributes the
source gives it.
-/

namespace LKVA

/-- The slice of `process.env` the excerpt reads: `AGENT_NAME` is `some v`
when the variable is set to the string `v` (possibly empty) and `none`
when it is unset. -/
structure Env where
  AGENT_NAME : Option String
deriving Repr, DecidableEq

/-- JavaScript nullish coalescing `x ?? d` on possibly-undefined strings:
it yields `d` only when `x` is absent (undefined), and passes every
present string value through unchanged. -/
def nullishCoalesce (x d : Option String) : Option String :=
  match x with
  | some v => some v
  | none => d

/-- The `AppConfig` interface of `src/frontend/app-config.ts`; optional
fields (`accent?`, `logoDark?`, `accentDark?`, `agentName?`, `sandboxId?`)
are `Option String`. -/
structure AppConfig where
  pageTitle : String
  pageDescription : String
  companyName : String
  supportsChatInput : Bool
  supportsVideoInput : Bool
  supportsScreenShare : Bool
  isPreConnectBufferEnabled : Bool
  logo : String
  startButtonText : String
  accent : Option String
  logoDark : Option String
  accentDark : Option String
  agentName : Option String
  sandboxId : Option String
deriving Repr, DecidableEq

/-- `APP_CONFIG_DEFAULTS` of `src/frontend/app-config.ts`, as a function
of the process environment it reads: every field is the source literal,
except `agentName := process.env.AGENT_NAME ?? undefined`. -/
def APP_CONFIG_DEFAULTS (env : Env) : AppConfig :=
  { companyName := "Trading Assistant"
    pageTitle := "AI Trading Assistant"
    pageDescription := "Your personal voice-powered portfolio analyst"
    supportsChatInput := true
    supportsVideoInput := false
    supportsScreenShare := false
    isPreConnectBufferEnabled := true
    logo := "/lk-logo.svg"
    accent := "#16a34a"
    logoDark := "/lk-logo-dark.svg"
    accentDark := "#4ade80"
    startButtonText := "Analyse my portfolio"
    agentName := nullishCoalesce env.AGENT_NAME none
    sandboxId := none }

/-- Rendered markup: a tree of text nodes and elements.  An element
carries its tag, its string attributes in source order, the ref attached
to it (if any, of an abstract ref type `ρ`), its `onClick` handler (if
any, of an abstract callback type `α`) and its children.  `onClick` is the
only event-handler attribute appearing anywhere in the source markup. -/
inductive Node (ρ α : Type) : Type
  | text (s : String) : Node ρ α
  | element (tag : String) (attrs : List (String × String))
      (ref : Option ρ) (onClick : Option α)
      (children : List (Node ρ α)) : Node ρ α

/-- An element with no ref and no event handler (the common case in the
source markup). -/
def el {ρ α : Type} (tag : String) (attrs : List (String × String))
    (children : List (Node ρ α)) : Node ρ α :=
  Node.element tag attrs none none children

/-- The `WelcomeImage` component: the candlestick-chart SVG icon,
transcribed element by element from the source. -/
def WelcomeImage {ρ α : Type} : Node ρ α :=
  el "svg"
    [("width", "64"), ("height", "64"), ("viewBox", "0 0 64 64"),
     ("fill", "none"), ("xmlns", "http://www.w3.org/2000/svg"),
     ("className", "text-fg0 mb-4 size-16")]
    [ -- Candle 1 – bearish (down)
      el "line" [("x1", "12"), ("y1", "8"), ("x2", "12"), ("y2", "16"),
        ("stroke", "currentColor"), ("strokeWidth", "2"), ("strokeLinecap", "round")] [],
      el "rect" [("x", "8"), ("y", "16"), ("width", "8"), ("height", "14"),
        ("rx", "1"), ("fill", "currentColor"), ("opacity", "0.4")] [],
      el "line" [("x1", "12"), ("y1", "30"), ("x2", "12"), ("y2", "38"),
        ("stroke", "currentColor"), ("strokeWidth", "2"), ("strokeLinecap", "round")] [],
      -- Candle 2 – bullish (up)
      el "line" [("x1", "28"), ("y1", "12"), ("x2", "28"), ("y2", "20"),
        ("stroke", "currentColor"), ("strokeWidth", "2"), ("strokeLinecap", "round")] [],
      el "rect" [("x", "24"), ("y", "20"), ("width", "8"), ("height", "18"),
        ("rx", "1"), ("fill", "currentColor")] [],
      el "line" [("x1", "28"), ("y1", "38"), ("x2", "28"), ("y2", "46"),
        ("stroke", "currentColor"), ("strokeWidth", "2"), ("strokeLinecap", "round")] [],
      -- Candle 3 – bearish
      el "line" [("x1", "44"), ("y1", "6"), ("x2", "44"), ("y2", "14"),
        ("stroke", "currentColor"), ("strokeWidth", "2"), ("strokeLinecap", "round")] [],
      el "rect" [("x", "40"), ("y", "14"), ("width", "8"), ("height", "12"),
        ("rx", "1"), ("fill", "currentColor"), ("opacity", "0.4")] [],
      el "line" [("x1", "44"), ("y1", "26"), ("x2", "44"), ("y2", "34"),
        ("stroke", "currentColor"), ("strokeWidth", "2"), ("strokeLinecap", "round")] [],
      -- Candle 4 – bullish
      el "line" [("x1", "56"), ("y1", "18"), ("x2", "56"), ("y2", "24"),
        ("stroke", "currentColor"), ("strokeWidth", "2"), ("strokeLinecap", "round")] [],
      el "rect" [("x", "52"), ("y", "24"), ("width", "8"), ("height", "20"),
        ("rx", "1"), ("fill", "currentColor")] [],
      el "line" [("x1", "56"), ("y1", "44"), ("x2", "56"), ("y2", "52"),
        ("stroke", "currentColor"), ("strokeWidth", "2"), ("strokeLinecap", "round")] [],
      -- Baseline
      el "line" [("x1", "4"), ("y1", "58"), ("x2", "60"), ("y2", "58"),
        ("stroke", "currentColor"), ("strokeWidth", "2"), ("strokeLinecap", "round"),
        ("opacity", "0.3")] [] ]

/-- The `WelcomeView` component: its props are `startButtonText` and the
`onStartCall` callback (plus the forwarded `ref` from the div props); it
renders the root div holding the section (icon, heading, description
paragraph, Button labelled by the prop) and the fixed disclaimer footer,
transcribed from the source. -/
def WelcomeView {ρ α : Type} (startButtonText : String) (onStartCall : α)
    (ref : Option ρ) : Node ρ α :=
  Node.element "div" [] ref none
    [ el "section"
        [("className", "bg-background flex flex-col items-center justify-center text-center")]
        [ WelcomeImage,
          el "h1" [("className", "text-foreground text-xl font-semibold tracking-tight")]
            [Node.text "AI Trading Assistant"],
          el "p" [("className", "text-muted-foreground max-w-xs pt-1 text-sm leading-6")]
            [Node.text "Ask about your portfolio, analyse your trades, check live prices, or create a new pie — all by voice."],
          Node.element "Button"
            [("size", "lg"),
             ("className", "mt-6 w-64 rounded-full font-mono text-xs font-bold tracking-wider uppercase")]
            none (some onStartCall)
            [Node.text startButtonText] ],
      el "div" [("className", "fixed bottom-5 left-0 flex w-full items-center justify-center")]
        [ el "p"
            [("className", "text-muted-foreground max-w-prose pt-1 text-xs leading-5 font-normal text-pretty md:text-sm")]
            [Node.text "Powered by Trading 212 · For informational use only · Not financial advice."] ] ]

mutual
/-- All `onClick` handlers attached anywhere in a tree, in document
order. -/
def collectOnClick {ρ α : Type} : Node ρ α → List α
  | .text _ => []
  | .element _ _ _ h cs => h.toList ++ collectOnClickList cs
def collectOnClickList {ρ α : Type} : List (Node ρ α) → List α
  | [] => []
  | n :: ns => collectOnClick n ++ collectOnClickList ns
end

mutual
/-- Whether some element of the tree has the given tag. -/
def containsTag {ρ α : Type} (t : String) : Node ρ α → Bool
  | .text _ => false
  | .element tag _ _ _ cs => tag == t || containsTagList t cs
def containsTagList {ρ α : Type} (t : String) : List (Node ρ α) → Bool
  | [] => false
  | n :: ns => containsTag t n || containsTagList t ns
end

/-- The strings of the immediate text children of an element. -/
def childTexts {ρ α : Type} : List (Node ρ α) → List String
  | [] => []
  | .text s :: ns => s :: childTexts ns
  | .element _ _ _ _ _ :: ns => childTexts ns

mutual
/-- The text rendered directly inside every element of the given tag, in
document order. -/
def textsUnderTag {ρ α : Type} (t : String) : Node ρ α → List String
  | .text _ => []
  | .element tag _ _ _ cs =>
      (if tag == t then childTexts cs else []) ++ textsUnderTagList t cs
def textsUnderTagList {ρ α : Type} (t : String) : List (Node ρ α) → List String
  | [] => []
  | n :: ns => textsUnderTag t n ++ textsUnderTagList t ns
end

mutual
/-- The `onClick` handlers carried by elements of the given tag, in
document order. -/
def tagHandlers {ρ α : Type} (t : String) : Node ρ α → List α
  | .text _ => []
  | .element tag _ _ h cs =>
      (if tag == t then h.toList else []) ++ tagHandlersList t cs
def tagHandlersList {ρ α : Type} (t : String) : List (Node ρ α) → List α
  | [] => []
  | n :: ns => tagHandlers t n ++ tagHandlersList t ns
end

/-- One click event dispatched on the Button: the callbacks invoked are
exactly the `onClick` handlers attached to the Button element. -/
def clickButton {ρ α : Type} (n : Node ρ α) : List α :=
  tagHandlers "Button" n

mutual
/-- Erase ref and handler identities from a tree, keeping for each element
whether a handler is attached; two renders equal after erasure are
identical apart from the attached ref and handler identity. -/
def eraseIds {ρ α : Type} : Node ρ α → Node Unit Unit
  | .text s => .text s
  | .element tag attrs _ h cs =>
      .element tag attrs none (h.map fun _ => ()) (eraseIdsList cs)
def eraseIdsList {ρ α : Type} : List (Node ρ α) → List (Node Unit Unit)
  | [] => []
  | n :: ns => eraseIds n :: eraseIdsList ns
end

/-- A runtime JavaScript value of the shapes the configuration record can
hold: a string, a boolean, or `undefined`. -/
inductive Value : Type
  | str (s : String) : Value
  | bool (b : Bool) : Value
  | undefined : Value

/-- A declared field type of the `AppConfig` interface. -/
inductive FieldTy : Type
  | string : FieldTy
  | boolean : FieldTy
  | optString : FieldTy

/-- Whether a runtime value inhabits a declared field type. -/
def hasTy : Value → FieldTy → Bool
  | .str _, .string => true
  | .bool _, .boolean => true
  | .str _, .optString => true
  | .undefined, .optString => true
  | _, _ => false

/-- The field names and declared types of the `AppConfig` interface, in
declaration order. -/
def schema : List (String × FieldTy) :=
  [("pageTitle", .string), ("pageDescription", .string), ("companyName", .string),
   ("supportsChatInput", .boolean), ("supportsVideoInput", .boolean),
   ("supportsScreenShare", .boolean), ("isPreConnectBufferEnabled", .boolean),
   ("logo", .string), ("startButtonText", .string), ("accent", .optString),
   ("logoDark", .optString), ("accentDark", .optString), ("agentName", .optString),
   ("sandboxId", .optString)]

/-- The runtime value of an optional string field: a present string, or
`undefined`. -/
def optVal : Option String → Value
  | some s => .str s
  | none => .undefined

/-- The configuration record as the raw name-value record the JavaScript
object holds. -/
def rawOf (c : AppConfig) : List (String × Value) :=
  [("pageTitle", .str c.pageTitle), ("pageDescription", .str c.pageDescription),
   ("companyName", .str c.companyName),
   ("supportsChatInput", .bool c.supportsChatInput),
   ("supportsVideoInput", .bool c.supportsVideoInput),
   ("supportsScreenShare", .bool c.supportsScreenShare),
   ("isPreConnectBufferEnabled", .bool c.isPreConnectBufferEnabled),
   ("logo", .str c.logo), ("startButtonText", .str c.startButtonText),
   ("accent", optVal c.accent), ("logoDark", optVal c.logoDark),
   ("accentDark", optVal c.accentDark), ("agentName", optVal c.agentName),
   ("sandboxId", optVal c.sandboxId)]

/-- A raw record is well typed against the interface: it has exactly the
declared fields, in order, each holding a value of its declared type. -/
def wellTyped (r : List (String × Value)) : Bool :=
  r.length == schema.length &&
    (List.zip r schema).all fun p => p.1.1 == p.2.1 && hasTy p.1.2 p.2.2

/-- The observable state of the excerpt at runtime: the configuration
record built at process start, and the currently rendered view (if any). -/
structure SysState (ρ α : Type) where
  config : AppConfig
  view : Option (Node ρ α)

/-- Process start: the configuration is initialized from the static
defaults and the environment; nothing is rendered yet. -/
def initState {ρ α : Type} (env : Env) : SysState ρ α :=
  { config := APP_CONFIG_DEFAULTS env, view := none }

/-- The operations the excerpt performs after initialization: rendering
`WelcomeView` with some props, and a click on the button (which invokes
the external callback and leaves the excerpt state unchanged).  Neither
operation writes any configuration field. -/
inductive Step {ρ α : Type} : SysState ρ α → SysState ρ α → Prop
  | render (t : String) (cb : α) (r : Option ρ) (s : SysState ρ α) :
      Step s { config := s.config, view := some (WelcomeView t cb r) }
  | click (s : SysState ρ α) : Step s s

/-- Reachability by finitely many steps. -/
inductive Reaches {ρ α : Type} : SysState ρ α → SysState ρ α → Prop
  | refl (s : SysState ρ α) : Reaches s s
  | tail {s t u : SysState ρ α} : Reaches s t → Step t u → Reaches s u

/-- Modelled from the spec: the page that reads the configuration object
and renders `WelcomeView` is not part of this excerpt.  Per the spec, the
only dependency is "a configuration object is read by a rendering
function", and `WelcomeView`'s props accept the configuration only
through its `startButtonText` field. -/
def renderFromConfig {ρ α : Type} (cfg : AppConfig) (cb : α)
    (r : Option ρ) : Node ρ α :=
  WelcomeView cfg.startButtonText cb r

/-- C1: when `process.env.AGENT_NAME` is unset, every field of
`APP_CONFIG_DEFAULTS` equals its literal default, with `agentName` and
`sandboxId` undefined. -/
theorem c1_defaults_literal (env : Env) (h : env.AGENT_NAME = none) :
    APP_CONFIG_DEFAULTS env =
      { companyName := "Trading Assistant"
        pageTitle := "AI Trading Assistant"
        pageDescription := "Your personal voice-powered portfolio analyst"
        supportsChatInput := true
        supportsVideoInput := false
        supportsScreenShare := false
        isPreConnectBufferEnabled := true
        logo := "/lk-logo.svg"
        accent := some "#16a34a"
        logoDark := some "/lk-logo-dark.svg"
        accentDark := some "#4ade80"
        startButtonText := "Analyse my portfolio"
        agentName := none
        sandboxId := none } := by
  unfold APP_CONFIG_DEFAULTS
  rw [h]
  rfl

/-- Witness for C1 at the concrete environment with `AGENT_NAME` unset. -/
theorem c1_defaults_literal_witness :
    (Env.mk none).AGENT_NAME = none ∧
      APP_CONFIG_DEFAULTS (Env.mk none) =
        { companyName := "Trading Assistant"
          pageTitle := "AI Trading Assistant"
          pageDescription := "Your personal voice-powered portfolio analyst"
          supportsChatInput := true
          supportsVideoInput := false
          supportsScreenShare := false
          isPreConnectBufferEnabled := true
          logo := "/lk-logo.svg"
          accent := some "#16a34a"
          logoDark := some "/lk-logo-dark.svg"
          accentDark := some "#4ade80"
          startButtonText := "Analyse my portfolio"
          agentName := none
          sandboxId := none } :=
  ⟨rfl, c1_defaults_literal (Env.mk none) rfl⟩

/-- C2: for every `startButtonText` prop, the label text rendered inside
the Button element of `WelcomeView` output equals that string exactly
(and it is the only Button label). -/
theorem c2_button_label (ρ α : Type) (t : String) (cb : α) (r : Option ρ) :
    textsUnderTag "Button" (WelcomeView t cb r) = [t] :=
  rfl

/-- C3: the provided `onStartCall` callback is the unique event handler
in the rendered markup, it is attached as the Button element's `onClick`,
and one click event on the button invokes exactly that callback, exactly
once. -/
theorem c3_unique_click_handler (ρ α : Type) (t : String) (cb : α) (r : Option ρ) :
    collectOnClick (WelcomeView t cb r) = [cb] ∧
    tagHandlers "Button" (WelcomeView t cb r) = [cb] ∧
    clickButton (WelcomeView t cb r) = [cb] ∧
    (clickButton (WelcomeView t cb r)).length = 1 :=
  ⟨rfl, rfl, rfl, rfl⟩

/-- C4 (amended): the rendering function reads the configuration only
through the `startButtonText` field — the rendered button label follows
`cfg.startButtonText`, while the heading text is a hard-coded literal not
read from the configuration. -/
theorem c4_config_flow (ρ α : Type) (cfg : AppConfig) (cb : α) (r : Option ρ) :
    textsUnderTag "Button" (renderFromConfig cfg cb r) = [cfg.startButtonText] ∧
    textsUnderTag "h1" (renderFromConfig cfg cb r) = ["AI Trading Assistant"] :=
  ⟨rfl, rfl⟩

/-- C4 counterexample: changing the configuration's `pageTitle` (resp.
`pageDescription`) does not change the rendered heading (resp. paragraph)
text, which stays the hard-coded literal, so the rendered output is not
determined by reading those fields of `APP_CONFIG_DEFAULTS`. -/
theorem c4_counterexample :
    textsUnderTag "h1"
        (renderFromConfig
          { APP_CONFIG_DEFAULTS (Env.mk none) with pageTitle := "Changed Title" }
          () (none : Option Unit))
      = ["AI Trading Assistant"] ∧
    textsUnderTag "p"
        (renderFromConfig
          { APP_CONFIG_DEFAULTS (Env.mk none) with
              pageDescription := "Changed Description" }
          () (none : Option Unit))
      = ["Ask about your portfolio, analyse your trades, check live prices, or create a new pie — all by voice.",
         "Powered by Trading 212 · For informational use only · Not financial advice."] ∧
    ("AI Trading Assistant" : String) ≠ "Changed Title" ∧
    ("Ask about your portfolio, analyse your trades, check live prices, or create a new pie — all by voice." : String)
      ≠ "Changed Description" :=
  ⟨rfl, rfl, by decide, by decide⟩

/-- C5: the configuration record never changes after process-start
construction — every state reachable from `initState env` by the
operations of the excerpt (render, click) carries exactly
`APP_CONFIG_DEFAULTS env` — and for every environment the constructed
record is well typed against the declared `AppConfig` interface. -/
theorem c5_config_immutable_welltyped :
    (∀ (ρ α : Type) (env : Env) (s : SysState ρ α),
        Reaches (initState env) s → s.config = APP_CONFIG_DEFAULTS env) ∧
    (∀ env : Env, wellTyped (rawOf (APP_CONFIG_DEFAULTS env)) = true) := by
  constructor
  · intro ρ α env s h
    induction h with
    | refl => rfl
    | tail hr hs ih => cases hs <;> exact ih
  · intro env
    cases env with
    | mk a => cases a <;> rfl

/-- Witness for C5: a concrete two-state trace (initialize with
`AGENT_NAME` unset, then render) whose final state still holds the
default configuration, and the well-typedness of that configuration. -/
theorem c5_config_immutable_welltyped_witness :
    (SysState.mk (APP_CONFIG_DEFAULTS (Env.mk none))
        (some (WelcomeView "Analyse my portfolio" () (none : Option Unit)))).config
      = APP_CONFIG_DEFAULTS (Env.mk none) ∧
    wellTyped (rawOf (APP_CONFIG_DEFAULTS (Env.mk none))) = true :=
  ⟨c5_config_immutable_welltyped.1 Unit Unit (Env.mk none) _
      (Reaches.tail (Reaches.refl _)
        (Step.render "Analyse my portfolio" () none (initState (Env.mk none)))),
   c5_config_immutable_welltyped.2 (Env.mk none)⟩

/-- C6: for every prop assignment, the rendered markup contains the SVG
icon, a heading element, the Button, and the disclaimer footer paragraph
(the two paragraph texts are the description and the disclaimer). -/
theorem c6_four_parts (ρ α : Type) (t : String) (cb : α) (r : Option ρ) :
    containsTag "svg" (WelcomeView t cb r) = true ∧
    containsTag "h1" (WelcomeView t cb r) = true ∧
    containsTag "Button" (WelcomeView t cb r) = true ∧
    textsUnderTag "p" (WelcomeView t cb r) =
      ["Ask about your portfolio, analyse your trades, check live prices, or create a new pie — all by voice.",
       "Powered by Trading 212 · For informational use only · Not financial advice."] :=
  ⟨rfl, rfl, rfl, rfl⟩

/-- C7: no operation of the excerpt can fail — for every environment the
configuration evaluates to a value, and for every props the render
evaluates to a markup tree. -/
theorem c7_total (ρ α : Type) :
    (∀ env : Env, ∃ c : AppConfig, APP_CONFIG_DEFAULTS env = c) ∧
    (∀ (t : String) (cb : α) (r : Option ρ),
        ∃ n : Node ρ α, WelcomeView t cb r = n) :=
  ⟨fun env => ⟨APP_CONFIG_DEFAULTS env, rfl⟩,
   fun t cb r => ⟨WelcomeView t cb r, rfl⟩⟩

/-- C8: the nullish coalescing maps only an absent `AGENT_NAME` to
undefined; every present string, including the empty string, passes
through unchanged into `agentName`. -/
theorem c8_agentName_passthrough :
    (∀ (env : Env) (s : String), env.AGENT_NAME = some s →
        (APP_CONFIG_DEFAULTS env).agentName = some s) ∧
    (∀ env : Env, env.AGENT_NAME = none →
        (APP_CONFIG_DEFAULTS env).agentName = none) := by
  constructor
  · intro env s h
    simp [APP_CONFIG_DEFAULTS, nullishCoalesce, h]
  · intro env h
    simp [APP_CONFIG_DEFAULTS, nullishCoalesce, h]

/-- Witness for C8: with `AGENT_NAME` set to the empty string, the
configured `agentName` is the present empty string, not undefined. -/
theorem c8_agentName_passthrough_witness :
    (Env.mk (some "")).AGENT_NAME = some "" ∧
    (APP_CONFIG_DEFAULTS (Env.mk (some ""))).agentName = some "" :=
  ⟨rfl, c8_agentName_passthrough.1 (Env.mk (some "")) "" rfl⟩

/-- C9: for any two process environments, the configuration records agree
on every field other than `agentName` — each such field is a constant
independent of the environment. -/
theorem c9_env_noninterference (e1 e2 : Env) :
    (APP_CONFIG_DEFAULTS e1).pageTitle = (APP_CONFIG_DEFAULTS e2).pageTitle ∧
    (APP_CONFIG_DEFAULTS e1).pageDescription = (APP_CONFIG_DEFAULTS e2).pageDescription ∧
    (APP_CONFIG_DEFAULTS e1).companyName = (APP_CONFIG_DEFAULTS e2).companyName ∧
    (APP_CONFIG_DEFAULTS e1).supportsChatInput = (APP_CONFIG_DEFAULTS e2).supportsChatInput ∧
    (APP_CONFIG_DEFAULTS e1).supportsVideoInput = (APP_CONFIG_DEFAULTS e2).supportsVideoInput ∧
    (APP_CONFIG_DEFAULTS e1).supportsScreenShare = (APP_CONFIG_DEFAULTS e2).supportsScreenShare ∧
    (APP_CONFIG_DEFAULTS e1).isPreConnectBufferEnabled = (APP_CONFIG_DEFAULTS e2).isPreConnectBufferEnabled ∧
    (APP_CONFIG_DEFAULTS e1).logo = (APP_CONFIG_DEFAULTS e2).logo ∧
    (APP_CONFIG_DEFAULTS e1).startButtonText = (APP_CONFIG_DEFAULTS e2).startButtonText ∧
    (APP_CONFIG_DEFAULTS e1).accent = (APP_CONFIG_DEFAULTS e2).accent ∧
    (APP_CONFIG_DEFAULTS e1).logoDark = (APP_CONFIG_DEFAULTS e2).logoDark ∧
    (APP_CONFIG_DEFAULTS e1).accentDark = (APP_CONFIG_DEFAULTS e2).accentDark ∧
    (APP_CONFIG_DEFAULTS e1).sandboxId = (APP_CONFIG_DEFAULTS e2).sandboxId :=
  ⟨rfl, rfl, rfl, rfl, rfl, rfl, rfl, rfl, rfl, rfl, rfl, rfl, rfl⟩

/-- C10: the rendered markup is a deterministic function of the
`startButtonText` prop alone — renders with equal `startButtonText` are
identical after erasing ref and handler identity — and the heading, the
paragraph texts and the SVG icon are fixed constants unaffected by any
prop. -/
theorem c10_deterministic (ρ σ α β : Type) (t : String)
    (cb1 : α) (cb2 : β) (r1 : Option ρ) (r2 : Option σ) :
    eraseIds (WelcomeView t cb1 r1) = eraseIds (WelcomeView t cb2 r2) ∧
    textsUnderTag "h1" (WelcomeView t cb1 r1) = ["AI Trading Assistant"] ∧
    textsUnderTag "p" (WelcomeView t cb1 r1) =
      ["Ask about your portfolio, analyse your trades, check live prices, or create a new pie — all by voice.",
       "Powered by Trading 212 · For informational use only · Not financial advice."] ∧
    containsTag "svg" (WelcomeView t cb1 r1) = true :=
  ⟨rfl, rfl, rfl, rfl⟩

end LKVA
